import Mathlib

/-
  Verification development for the browser-devtools inspection server.

  This file gives a shallow embedding of the core logic of the repository:
  the error taxonomy (src/errors.ts), the shorthand guard and cascade engine
  (src/cdp/cascade.ts), the stylesheet snippet extraction (src/cdp/css.ts),
  the element-target query layer (src/cdp/dom.ts), the tool handlers
  getElement / getCssProvenance (src/tools/get-element.ts,
  src/tools/get-css-provenance.ts), and the session lifecycle manager
  (src/session/manager.ts) together with the session start/stop tool handlers
  (src/tools/session-start.ts, src/tools/session-stop.ts).

  External collaborators (the CDP debugging connection and the Playwright
  driver) are modelled as oracles: total functions supplying the responses
  the code would receive; the embedding tracks which CDP calls are issued so
  that call-order/absence properties are statable.  JavaScript-specific
  semantics that the code relies on (Array.prototype.slice with a negative
  end index, falsy coercion of the empty string, Array.prototype.join) are
  embedded explicitly.
-/

/-! ## Error taxonomy (src/errors.ts) -/

/-- Error codes, from the ErrorCode enum of src/errors.ts. -/
inductive ErrorCode
  | ALREADY_STARTED
  | SESSION_START_IN_PROGRESS
  | NO_ACTIVE_SESSION
  | PLAYWRIGHT_LAUNCH_FAILED
  | HOOKS_START_FAILED
  | HOOKS_STOP_FAILED
  | NAVIGATION_TIMEOUT
  | NAVIGATION_BLOCKED_BY_POLICY
  | ELEMENT_NOT_FOUND
  | CSS_DOMAIN_UNAVAILABLE
  | QUERY_TIMEOUT
  | UNEXPECTED_ERROR
deriving DecidableEq, Repr

/-- Structured error object `{error: {code, message}}` built by createError.
The free-form details payload is not modelled. -/
structure DevToolsError where
  code : ErrorCode
  message : String
deriving DecidableEq, Repr

/-- createError from src/errors.ts (details payload elided). -/
def createError (code : ErrorCode) (message : String) : DevToolsError :=
  { code := code, message := message }

/-! ## JavaScript semantics helpers -/

/-- JavaScript Array.prototype.join with a separator: empty array joins to
the empty string, otherwise elements interleaved with the separator. -/
def jsJoin (sep : String) : List String → String
  | [] => ""
  | x :: xs => xs.foldl (fun acc y => acc ++ sep ++ y) x

/-- JavaScript String.prototype.split with a one-character separator, on the
character list: splitting the empty string yields one empty piece, and every
separator occurrence starts a new piece. -/
def splitOnCharList (sep : Char) : List Char → List (List Char)
  | [] => [[]]
  | c :: rest =>
    let r := splitOnCharList sep rest
    if c = sep then [] :: r
    else
      match r with
      | [] => [[c]]
      | h :: t => (c :: h) :: t

/-- JavaScript text.split with a one-character separator, on strings. -/
def jsSplit (sep : Char) (text : String) : List String :=
  (splitOnCharList sep text.toList).map List.asString

/-- JavaScript arr.slice(0, e): a negative end index counts from the end of
the array (clamped at 0); a nonnegative end index is clamped at the length. -/
def jsSliceTo (l : List α) (e : Int) : List α :=
  let len : Int := l.length
  let stop : Int := if e < 0 then max (len + e) 0 else min e len
  l.take stop.toNat

/-- JavaScript `v || null` on an optional string: the empty string is falsy
and is coerced to null. -/
def jsOrNull (v : Option String) : Option String :=
  match v with
  | some s => if s = "" then none else some s
  | none => none

/-- Lookup in a JS object built by repeated `result[name] = value`
assignments in list order: the last assignment for a name wins. -/
def recordGet (entries : List (String × String)) (name : String) : Option String :=
  ((entries.filter fun e => e.1 = name).getLast?).map Prod.snd

/-! ## Shorthand guard (src/cdp/cascade.ts, SHORTHAND_TO_LONGHAND table) -/

/-- The static shorthand-to-longhand table of src/cdp/cascade.ts. -/
def SHORTHAND_TO_LONGHAND : List (String × List String) :=
  [ ("margin", ["margin-top", "margin-right", "margin-bottom", "margin-left"]),
    ("padding", ["padding-top", "padding-right", "padding-bottom", "padding-left"]),
    ("border",
      ["border-top-width", "border-right-width", "border-bottom-width", "border-left-width",
       "border-top-style", "border-right-style", "border-bottom-style", "border-left-style",
       "border-top-color", "border-right-color", "border-bottom-color", "border-left-color"]),
    ("border-top", ["border-top-width", "border-top-style", "border-top-color"]),
    ("border-right", ["border-right-width", "border-right-style", "border-right-color"]),
    ("border-bottom", ["border-bottom-width", "border-bottom-style", "border-bottom-color"]),
    ("border-left", ["border-left-width", "border-left-style", "border-left-color"]),
    ("border-width",
      ["border-top-width", "border-right-width", "border-bottom-width", "border-left-width"]),
    ("border-style",
      ["border-top-style", "border-right-style", "border-bottom-style", "border-left-style"]),
    ("border-color",
      ["border-top-color", "border-right-color", "border-bottom-color", "border-left-color"]),
    ("background",
      ["background-color", "background-image", "background-repeat", "background-position",
       "background-size"]),
    ("font",
      ["font-style", "font-variant", "font-weight", "font-size", "line-height", "font-family"]),
    ("flex", ["flex-grow", "flex-shrink", "flex-basis"]) ]

/-- isShorthand from src/cdp/cascade.ts: key-membership in the static table. -/
def isShorthand (property : String) : Bool :=
  (SHORTHAND_TO_LONGHAND.find? fun e => e.1 = property).isSome

/-- getLonghands from src/cdp/cascade.ts. -/
def getLonghands (shorthand : String) : Option (List String) :=
  (SHORTHAND_TO_LONGHAND.find? fun e => e.1 = shorthand).map Prod.snd

/-! ## Snippet extraction (src/cdp/css.ts, extractSnippet) -/

/-- extractSnippet from src/cdp/css.ts: split the stylesheet text on
newlines, return the empty string when the line index is out of bounds,
otherwise join the lines from max(0, line - contextLines) through
min(lastLine, line + contextLines).  The column argument is accepted but
never read, exactly as in the source. -/
def extractSnippet (text : String) (line : Int) (column : Int)
    (contextLines : Int := 0) : String :=
  let lines := jsSplit '\n' text
  if line < 0 ∨ (lines.length : Int) ≤ line then ""
  else
    let startLine : Int := max 0 (line - contextLines)
    let endLine : Int := min ((lines.length : Int) - 1) (line + contextLines)
    jsJoin "\n" ((lines.drop startLine.toNat).take (endLine + 1 - startLine).toNat)

/-! ## CDP data model (shapes consumed from CSS.getMatchedStylesForNode) -/

/-- Source range of a declaration (startLine/startColumn are the only fields
the code reads). -/
structure SourceRange where
  startLine : Int
  startColumn : Int
deriving DecidableEq, Repr

/-- A CDP CSSProperty record: name, value, importance, disabled flag and an
optional source range. -/
structure CDPProperty where
  name : String
  value : String
  important : Bool
  disabled : Bool
  range : Option SourceRange
deriving DecidableEq, Repr

/-- The selectorList of a rule; the code reads only its joined text. -/
structure CDPSelectorList where
  text : Option String
deriving DecidableEq, Repr

/-- A CDP CSSStyle block: declaration list plus owning stylesheet id. -/
structure CDPStyle where
  cssProperties : List CDPProperty
  styleSheetId : Option String
deriving DecidableEq, Repr

/-- A CDP CSSRule as consumed by the cascade engine. -/
structure CDPRule where
  selectorList : Option CDPSelectorList
  style : CDPStyle
deriving DecidableEq, Repr

/-- A matched-rule entry of CSS.getMatchedStylesForNode (the code unwraps
only the rule). -/
structure CDPMatchedRule where
  rule : CDPRule
deriving DecidableEq, Repr

/-- The response of CSS.getMatchedStylesForNode as consumed by the code:
the inline style block and the matched rules, in the style engine's reported
match order.  The protocol also reports inherited ancestor styles; the code
never reads them, and the field is carried here so that independence from it
is statable. -/
structure CDPMatchedStyles where
  inlineStyle : Option CDPStyle
  matchedCSSRules : List CDPMatchedRule
  inherited : List CDPStyle
deriving DecidableEq, Repr

/-! ## Cascade engine (src/cdp/cascade.ts, findWinningDeclaration) -/

/-- One collected declaration: the property record plus its owning rule
(none marks the inline-origin pseudo rule). -/
structure Decl where
  prop : CDPProperty
  rule : Option CDPRule
deriving DecidableEq, Repr

/-- A declaration is inline iff it carries no owning rule (the code tags
inline entries with an origin marker instead of a rule). -/
def declIsInline (d : Decl) : Bool := d.rule.isNone

/-- The collection phase of findWinningDeclaration: inline declarations
first (in inline-style order), then, for each matched rule in match order,
that rule's declarations in order; keeping only entries whose name equals
the requested property and which are not disabled. -/
def collectDeclarations (ms : CDPMatchedStyles) (property : String) : List Decl :=
  let inlineDecls :=
    match ms.inlineStyle with
    | some st =>
        (st.cssProperties.filter fun p => p.name == property && !p.disabled).map
          fun p => { prop := p, rule := none }
    | none => []
  let ruleDecls :=
    (ms.matchedCSSRules.map fun mr =>
      (mr.rule.style.cssProperties.filter fun p => p.name == property && !p.disabled).map
        fun p => { prop := p, rule := some mr.rule }).join
  inlineDecls ++ ruleDecls

/-- The winner-selection phase of findWinningDeclaration, on declarations
tagged with their collection index (standing in for JS object identity):
partition into inline/stylesheet then important/normal, and take the last
element of the first non-empty bucket in the fixed priority order. -/
def pickWinner (all : List (Nat × Decl)) : Option (Nat × Decl) :=
  let inlineDeclarations := all.filter fun d => declIsInline d.2
  let stylesheetDeclarations := all.filter fun d => !declIsInline d.2
  let inlineImportant := inlineDeclarations.filter fun d => d.2.prop.important
  let stylesheetImportant := stylesheetDeclarations.filter fun d => d.2.prop.important
  let inlineNormal := inlineDeclarations.filter fun d => !d.2.prop.important
  let stylesheetNormal := stylesheetDeclarations.filter fun d => !d.2.prop.important
  if inlineImportant ≠ [] then inlineImportant.getLast?
  else if stylesheetImportant ≠ [] then stylesheetImportant.getLast?
  else if inlineNormal ≠ [] then inlineNormal.getLast?
  else stylesheetNormal.getLast?

/-- Specification-level cascade bucket: the sublist of collected
declarations, kept verbatim in collection order, whose origin and importance
match the bucket tags. -/
def cascadeBucket (all : List (Nat × Decl)) (inl imp : Bool) : List (Nat × Decl) :=
  all.filter fun d => declIsInline d.2 == inl && d.2.prop.important == imp

/-- Specification-level winner, following the spec's words: the four buckets
in priority order inline-important, stylesheet-important, inline-normal,
stylesheet-normal; the winner is the last element (in preserved match order)
of the highest-priority non-empty bucket. -/
def specCascadeWinner (all : List (Nat × Decl)) : Option (Nat × Decl) :=
  (([cascadeBucket all true true, cascadeBucket all false true,
     cascadeBucket all true false, cascadeBucket all false false].find?
      fun b => !b.isEmpty).bind List.getLast?)

/-! ## CDP environment oracle and call traces -/

/-- The CDP calls the embedded code can issue, for call-trace properties. -/
inductive CdpCall
  | getDocument
  | querySelectorAll (selector : String)
  | getComputedStyleForNode (nodeId : Nat)
  | getMatchedStylesForNode (nodeId : Nat)
  | getStyleSheetText (styleSheetId : String)
  | getAttributes (nodeId : Nat)
  | getBoxModel (nodeId : Nat)
  | describeNode (nodeId : Nat)
deriving DecidableEq, Repr

/-- Outer box-model summary produced by getElementBoxModel; the quad
conversion arithmetic is not needed by any claim, so the converted record is
supplied whole by the oracle. -/
structure BoxModel where
  x : Int
  y : Int
  width : Int
  height : Int
deriving DecidableEq, Repr

/-- Oracle for the debugging-protocol connection: the responses the browser
would return for each request, as total functions (transport failures of the
best-effort accessors are already folded into the optional results, exactly
as the source swallows them). -/
structure CdpEnv where
  /-- DOM.querySelectorAll result (node ids) for a selector, scoped to the
  document root. -/
  query : String → List Nat
  /-- CSS.getComputedStyleForNode result: the full computed-style list for a
  node, as (name, value) entries in response order. -/
  computedStyle : Nat → List (String × String)
  /-- CSS.getMatchedStylesForNode result for a node. -/
  matchedStyles : Nat → CDPMatchedStyles
  /-- CSS.getStyleSheetText result (none models a swallowed fetch failure). -/
  styleSheetText : String → Option String
  /-- Best-effort sourceURL of a stylesheet header (none when unavailable). -/
  styleSheetSourceURL : String → Option String
  /-- DOM.getAttributes result as a name/value record (empty on failure). -/
  attributes : Nat → List (String × String)
  /-- Converted DOM.getBoxModel result (none when the node has no box). -/
  boxModel : Nat → Option BoxModel
  /-- DOM.describeNode node name (none on failure). -/
  nodeName : Nat → Option String

/-! ## Element target resolution (src/cdp/dom.ts) -/

/-- Caller-supplied element locator. -/
inductive ElementTarget
  | id (value : String)
  | selector (value : String)
deriving DecidableEq, Repr

/-- escapeCSS from src/cdp/dom.ts: every character outside [A-Za-z0-9_-]
is prefixed with a backslash. -/
def escapeCSS (s : String) : String :=
  String.mk ((s.toList.map fun c =>
    if c.isAlphanum || c = '_' || c = '-' then [c] else ['\\', c]).join)

/-- The selector actually queried for a target: an id target is rewritten to
an escaped ID selector, a selector target passes through verbatim. -/
def targetSelector : ElementTarget → String
  | ElementTarget.id v => "#" ++ escapeCSS v
  | ElementTarget.selector v => v

/-- resolveElementTargets from src/cdp/dom.ts: fetch the document root,
run DOM.querySelectorAll with the target's selector, and truncate the match
list with JavaScript slice(0, maxResults).  Returns the node list plus the
CDP calls issued; zero matches yield the empty list, never an error. -/
def resolveElementTargets (env : CdpEnv) (target : ElementTarget)
    (maxResults : Int) : List Nat × List CdpCall :=
  let selector := targetSelector target
  let nodeIds := env.query selector
  (jsSliceTo nodeIds maxResults, [CdpCall.getDocument, CdpCall.querySelectorAll selector])

/-! ## Declaration source resolver (src/cdp/cascade.ts, declarationToSource) -/

/-- Wire-level provenance record for a winner or contributor. -/
structure CssDeclarationSource where
  source : String
  value : String
  important : Bool
  selector : Option String
  stylesheetUrl : Option String
  line : Option Int
  column : Option Int
  snippet : Option String
deriving DecidableEq, Repr

/-- declarationToSource from src/cdp/cascade.ts: classify origin, copy value
and importance; for stylesheet declarations add the rule's joined selector
text, and when the owning stylesheet id is known fetch the stylesheet text
(best-effort) to fill line/column and a trimmed one-line snippet (skipped
when extractSnippet returns the falsy empty string), then fetch the
stylesheet header's sourceURL with a second best-effort call.  Returns the
record plus the CDP calls issued. -/
def declarationToSource (env : CdpEnv) (d : Decl) :
    CssDeclarationSource × List CdpCall :=
  let base : CssDeclarationSource :=
    { source := if declIsInline d then "inline" else "stylesheet",
      value := d.prop.value, important := d.prop.important,
      selector := none, stylesheetUrl := none,
      line := none, column := none, snippet := none }
  match d.rule with
  | none => (base, [])
  | some rule =>
    match rule.selectorList with
    | none => (base, [])
    | some sl =>
      let withSel := { base with selector := sl.text }
      match rule.style.styleSheetId with
      | none => (withSel, [])
      | some styleSheetId =>
        let text := env.styleSheetText styleSheetId
        let withLoc :=
          match d.prop.range, text with
          | some r, some t =>
            let snippet := extractSnippet t r.startLine r.startColumn
            { withSel with
              line := some r.startLine, column := some r.startColumn,
              snippet := if snippet ≠ "" then some snippet.trim else none }
          | _, _ => withSel
        let withUrl :=
          match env.styleSheetSourceURL styleSheetId with
          | some u => { withLoc with stylesheetUrl := some u }
          | none => withLoc
        (withUrl, [CdpCall.getStyleSheetText styleSheetId,
                   CdpCall.getStyleSheetText styleSheetId])

/-- findWinningDeclaration from src/cdp/cascade.ts: fetch the node's matched
styles, collect the enabled declarations for the property, return no winner
when none exist, otherwise pick the cascade winner and map it (and the
non-winning declarations, distinguished by collection index as JS does by
object identity) through declarationToSource. -/
def findWinningDeclaration (env : CdpEnv) (nodeId : Nat) (property : String) :
    (Option CssDeclarationSource × List CssDeclarationSource) × List CdpCall :=
  let ms := env.matchedStyles nodeId
  let allDeclarations := collectDeclarations ms property
  let baseCalls := [CdpCall.getMatchedStylesForNode nodeId]
  if allDeclarations.isEmpty then ((none, []), baseCalls)
  else
    match pickWinner allDeclarations.enum with
    | none => ((none, []), baseCalls)
    | some (i, w) =>
      let (winnerSource, winnerCalls) := declarationToSource env w
      let contributorDecls :=
        (allDeclarations.enum.filter fun p => p.1 ≠ i).map Prod.snd
      let mapped := contributorDecls.map (declarationToSource env)
      ((some winnerSource, mapped.map Prod.fst),
        baseCalls ++ winnerCalls ++ (mapped.map Prod.snd).join)

/-! ## Computed styles (src/cdp/css.ts, getComputedStyles) -/

/-- getComputedStyles from src/cdp/css.ts: issue
CSS.getComputedStyleForNode and keep, in response order, the entries whose
name is in the requested property list (all entries when no list is given);
repeated assignment to the same record key is resolved by recordGet. -/
def getComputedStyles (env : CdpEnv) (nodeId : Nat)
    (properties : Option (List String)) :
    List (String × String) × List CdpCall :=
  let entries := (env.computedStyle nodeId).filter fun e =>
    match properties with
    | none => true
    | some ps => ps.contains e.1
  (entries, [CdpCall.getComputedStyleForNode nodeId])

/-! ## getCssProvenance tool handler (src/tools/get-css-provenance.ts) -/

/-- Per-target provenance result entry. -/
structure CssProvenanceInfo where
  property : String
  computedValue : Option String
  winner : Option CssDeclarationSource
  contributors : Option (List CssDeclarationSource)
deriving DecidableEq, Repr

/-- Result payload of getCssProvenance. -/
structure GetCssProvenanceResult where
  matchCount : Nat
  results : List CssProvenanceInfo
deriving DecidableEq, Repr

/-- Parameters of getCssProvenance. -/
structure GetCssProvenanceParams where
  target : ElementTarget
  property : String
  includeContributors : Bool
  maxResults : Option Int
deriving Repr

/-- The per-node body of the getCssProvenance loop: read the computed value
for the property (empty string coerced to null by the JS or-null), find the
winning declaration, and assemble the info record; contributors are attached
only when requested and non-empty. -/
def provenanceForNode (env : CdpEnv) (nodeId : Nat) (property : String)
    (includeContributors : Bool) : CssProvenanceInfo × List CdpCall :=
  let (computedRecord, computedCalls) :=
    getComputedStyles env nodeId (some [property])
  let computedValue := jsOrNull (recordGet computedRecord property)
  let ((winner, contributors), cascadeCalls) :=
    findWinningDeclaration env nodeId property
  ({ property := property, computedValue := computedValue,
     winner := winner,
     contributors :=
       if includeContributors && !contributors.isEmpty then some contributors
       else none },
    computedCalls ++ cascadeCalls)

/-- getCssProvenance from src/tools/get-css-provenance.ts: require an active
session, cap maxResults at 50, reject shorthand properties before resolving
targets or issuing any CDP call, resolve targets, convert an empty match
list into ELEMENT_NOT_FOUND, and otherwise report per-node provenance.
The session argument is the manager's current-session presence; the quoting
of the property name inside the shorthand message is kept as plain text. -/
def getCssProvenance (session : Option Unit) (env : CdpEnv)
    (params : GetCssProvenanceParams) :
    Except DevToolsError GetCssProvenanceResult × List CdpCall :=
  match session with
  | none =>
    (Except.error (createError ErrorCode.NO_ACTIVE_SESSION
      "No active session. Call devtools.session.start first."), [])
  | some _ =>
    let maxResults := min (params.maxResults.getD 10) 50
    if isShorthand params.property then
      (Except.error (createError ErrorCode.UNEXPECTED_ERROR
        ("Property " ++ params.property ++
         " is a CSS shorthand. Please use the longhand property instead.")), [])
    else
      let (nodeIds, resolveCalls) :=
        resolveElementTargets env params.target maxResults
      if nodeIds.isEmpty then
        (Except.error (createError ErrorCode.ELEMENT_NOT_FOUND
          "No elements found matching target"), resolveCalls)
      else
        let perNode := nodeIds.map fun nodeId =>
          provenanceForNode env nodeId params.property params.includeContributors
        (Except.ok { matchCount := nodeIds.length,
                     results := perNode.map Prod.fst },
          resolveCalls ++ (perNode.map Prod.snd).join)

/-! ## getElement tool handler (src/tools/get-element.ts) -/

/-- The default ~30-property computed-style set (src/cdp/css.ts). -/
def DEFAULT_COMPUTED_PROPERTIES : List String :=
  ["display", "position", "width", "height", "top", "right", "bottom", "left",
   "margin-top", "margin-right", "margin-bottom", "margin-left",
   "padding-top", "padding-right", "padding-bottom", "padding-left",
   "border-top-width", "border-right-width", "border-bottom-width",
   "border-left-width", "font-size", "font-family", "font-weight",
   "line-height", "color", "background-color", "z-index", "opacity",
   "visibility", "overflow", "flex-direction", "justify-content",
   "align-items"]

/-- inferInputRole from src/tools/get-element.ts: role of an input element
by its type attribute, defaulting to textbox. -/
def inferInputRole (type? : Option String) : String :=
  match type? with
  | none => "textbox"
  | some t =>
    let table : List (String × String) :=
      [("button", "button"), ("checkbox", "checkbox"), ("radio", "radio"),
       ("text", "textbox"), ("email", "textbox"), ("password", "textbox"),
       ("search", "searchbox"), ("tel", "textbox"), ("url", "textbox"),
       ("number", "spinbutton"), ("range", "slider")]
    ((table.find? fun e => e.1 = t.toLower).map Prod.snd).getD "textbox"

/-- inferRole from src/tools/get-element.ts: static tag-name to ARIA-role
lookup, with input elements dispatched on their type attribute; undefined
when no mapping applies. -/
def inferRole (nodeName : Option String)
    (attributes : Option (List (String × String))) : Option String :=
  match nodeName with
  | none => none
  | some n =>
    let tagName := n.toLower
    let roleMap : List (String × String) :=
      [("a", "link"), ("button", "button"),
       ("input", inferInputRole (attributes.bind fun a => recordGet a "type")),
       ("select", "combobox"), ("textarea", "textbox"), ("img", "img"),
       ("nav", "navigation"), ("main", "main"), ("header", "banner"),
       ("footer", "contentinfo"), ("section", "region"),
       ("article", "article"), ("aside", "complementary"), ("form", "form"),
       ("table", "table"), ("ul", "list"), ("ol", "list"),
       ("li", "listitem"), ("h1", "heading"), ("h2", "heading"),
       ("h3", "heading"), ("h4", "heading"), ("h5", "heading"),
       ("h6", "heading")]
    (roleMap.find? fun e => e.1 = tagName).map Prod.snd

/-- Per-result element info record. -/
structure ElementInfo where
  exists_ : Bool
  nodeName : Option String
  attributes : Option (List (String × String))
  boxModel : Option BoxModel
  computed : Option (List (String × String))
  role : Option String
deriving DecidableEq, Repr

/-- Result payload of getElement. -/
structure GetElementResult where
  matchCount : Nat
  results : List ElementInfo
deriving DecidableEq, Repr

/-- The include options of getElement (the computed entry carries the
requested property names, with the ALL_DEFAULTS sentinel). -/
structure IncludeOpts where
  attributes : Bool
  boxModel : Bool
  computed : Option (List String)
  role : Bool
deriving Repr

/-- Parameters of getElement; the source names the options field include,
which is reserved in Lean, hence incl. -/
structure GetElementParams where
  target : ElementTarget
  incl : IncludeOpts
  maxResults : Option Int
deriving Repr

/-- The per-node body of the getElement loop: node name always, then the
requested facts; the role is the role attribute when present and truthy,
otherwise the inferred role. -/
def elementInfoForNode (env : CdpEnv) (nodeId : Nat) (incl : IncludeOpts) :
    ElementInfo × List CdpCall :=
  let nodeName := env.nodeName nodeId
  let attributes :=
    if incl.attributes then some (env.attributes nodeId) else none
  let boxModel := if incl.boxModel then env.boxModel nodeId else none
  let (computed, computedCalls) :=
    match incl.computed with
    | some requested =>
      let properties := (requested.map fun p =>
        if p = "ALL_DEFAULTS" then DEFAULT_COMPUTED_PROPERTIES else [p]).join
      let (rec0, calls) := getComputedStyles env nodeId (some properties)
      (some rec0, calls)
    | none => (none, [])
  let role :=
    if incl.role then
      match attributes.bind fun a => recordGet a "role" with
      | some r => if r ≠ "" then some r else inferRole nodeName attributes
      | none => inferRole nodeName attributes
    else none
  ({ exists_ := true, nodeName := nodeName, attributes := attributes,
     boxModel := if incl.boxModel then boxModel else none,
     computed := computed, role := role },
    [CdpCall.describeNode nodeId]
      ++ (if incl.attributes then [CdpCall.getAttributes nodeId] else [])
      ++ (if incl.boxModel then [CdpCall.getBoxModel nodeId] else [])
      ++ computedCalls)

/-- getElement from src/tools/get-element.ts: require an active session, cap
maxResults at 50, resolve targets, convert an empty match list into
ELEMENT_NOT_FOUND, and otherwise collect per-node facts. -/
def getElement (session : Option Unit) (env : CdpEnv)
    (params : GetElementParams) :
    Except DevToolsError GetElementResult × List CdpCall :=
  match session with
  | none =>
    (Except.error (createError ErrorCode.NO_ACTIVE_SESSION
      "No active session. Call devtools.session.start first."), [])
  | some _ =>
    let maxResults := min (params.maxResults.getD 10) 50
    let (nodeIds, resolveCalls) :=
      resolveElementTargets env params.target maxResults
    if nodeIds.isEmpty then
      (Except.error (createError ErrorCode.ELEMENT_NOT_FOUND
        "No elements found matching target"), resolveCalls)
    else
      let perNode := nodeIds.map fun nodeId =>
        elementInfoForNode env nodeId params.incl
      (Except.ok { matchCount := nodeIds.length,
                   results := perNode.map Prod.fst },
        resolveCalls ++ (perNode.map Prod.snd).join)

/-! ## Session lifecycle manager (src/session/manager.ts) -/

/-- Policy slice of the resolved configuration snapshot. -/
structure PolicyConfig where
  singleInstance : Bool
  idleMs : Nat
deriving DecidableEq, Repr

/-- The live session state as far as the lifecycle claims observe it: the
configuration snapshot and whether the setup hook returned a teardown
callback.  The browser/context/page/CDP handles are external resources whose
release is tracked through the teardown trace. -/
structure SessState where
  policy : PolicyConfig
  hookStopFn : Bool
deriving DecidableEq, Repr

/-- The mutable fields of the singleton SessionManager: the session cell,
the start-in-progress flag, and whether an idle timer object is installed. -/
structure ManagerState where
  session : Option SessState
  startInProgress : Bool
  idleTimer : Bool
deriving DecidableEq, Repr

/-- SessionManager.hasSession. -/
def SessionManager.hasSession (st : ManagerState) : Bool := st.session.isSome

/-- SessionManager.isStarting. -/
def SessionManager.isStarting (st : ManagerState) : Bool := st.startInProgress

/-- SessionManager.getSession: the current session, or the
NO_ACTIVE_SESSION error when none exists. -/
def SessionManager.getSession (st : ManagerState) :
    Except DevToolsError SessState :=
  match st.session with
  | none =>
    Except.error (createError ErrorCode.NO_ACTIVE_SESSION
      "No active session. Call devtools.session.start first.")
  | some s => Except.ok s

/-- SessionManager.setSession: install the session, clear the
start-in-progress flag, and install a fresh idle timer. -/
def SessionManager.setSession (_st : ManagerState) (s : SessState) :
    ManagerState :=
  { session := some s, startInProgress := false, idleTimer := true }

/-- The observable steps of the teardown path, in execution order:
clearing the manager state, then the four resource releases, then the
hook-supplied teardown callback. -/
inductive TeardownStep
  | clearState
  | detachCdp
  | closePage
  | closeContext
  | closeBrowser
  | hookStop
deriving DecidableEq, Repr

/-- Outcome oracle for one run of the teardown path: whether each awaited
step succeeds.  The four resource-release steps sit in their own try blocks
whose catch clauses ignore the failure, so their flags never influence
control flow; only the hook teardown outcome does. -/
structure StopOutcomes where
  detachOk : Bool
  pageCloseOk : Bool
  contextCloseOk : Bool
  browserCloseOk : Bool
  hookStopOk : Bool
deriving DecidableEq, Repr

/-- SessionManager.stop from src/session/manager.ts: a no-op when no
session exists; otherwise clear the session cell and the start-in-progress
flag, cancel the idle timer, release the four resources best-effort in
fixed order, then invoke the hook teardown callback when one was supplied,
surfacing its failure as HOOKS_STOP_FAILED.  Returns the new manager state,
the executed step trace, and the call's result. -/
def SessionManager.stop (st : ManagerState) (o : StopOutcomes) :
    ManagerState × List TeardownStep × Except DevToolsError Unit :=
  match st.session with
  | none => (st, [], Except.ok ())
  | some s =>
    let st' : ManagerState :=
      { session := none, startInProgress := false, idleTimer := false }
    let releaseSteps : List TeardownStep :=
      [TeardownStep.clearState, TeardownStep.detachCdp, TeardownStep.closePage,
       TeardownStep.closeContext, TeardownStep.closeBrowser]
    if s.hookStopFn then
      if o.hookStopOk then
        (st', releaseSteps ++ [TeardownStep.hookStop], Except.ok ())
      else
        (st', releaseSteps ++ [TeardownStep.hookStop],
          Except.error (createError ErrorCode.HOOKS_STOP_FAILED
            "Hook stop function threw an error"))
    else (st', releaseSteps, Except.ok ())

/-! ## Session tool handlers (src/tools/session-start.ts, session-stop.ts) -/

/-- Result payload of the session start/stop tools. -/
structure SessionOkResult where
  ok : Bool
deriving DecidableEq, Repr

/-- sessionStart from src/tools/session-start.ts: reject with
ALREADY_STARTED when a session is already active, with
SESSION_START_IN_PROGRESS when another start is still in flight; otherwise
set the start-in-progress flag and run the start body (hook loading and
execution plus createPlaywrightSession, abstracted here as its outcome: the
created session state or the DevTools error it threw).  On success the
session is installed via setSession, which clears the flag; the source's
catch block calls markStartInProgress rather than clearStartInProgress, so
after a failed start the flag remains set, which the embedding preserves. -/
def sessionStart (st : ManagerState)
    (body : Except DevToolsError SessState) :
    ManagerState × Except DevToolsError SessionOkResult :=
  if SessionManager.hasSession st then
    (st, Except.error (createError ErrorCode.ALREADY_STARTED
      "Session is already active. Call devtools.session.stop first."))
  else if SessionManager.isStarting st then
    (st, Except.error (createError ErrorCode.SESSION_START_IN_PROGRESS
      "Session start is already in progress"))
  else
    let marked := { st with startInProgress := true }
    match body with
    | Except.ok s => (SessionManager.setSession marked s, Except.ok { ok := true })
    | Except.error e => ({ marked with startInProgress := true }, Except.error e)

/-- sessionStop from src/tools/session-stop.ts: run SessionManager.stop and
answer ok true; an error thrown by stop propagates. -/
def sessionStop (st : ManagerState) (o : StopOutcomes) :
    ManagerState × List TeardownStep × Except DevToolsError SessionOkResult :=
  match SessionManager.stop st o with
  | (st', trace, Except.ok ()) => (st', trace, Except.ok { ok := true })
  | (st', trace, Except.error e) => (st', trace, Except.error e)

/-! ## The specification's maxResults clamp

The spec bounds the result-list length by min(actualMatchCount,
clamp(maxResults, 0, 50)).  This definition follows the spec's words, for
comparison with the code's truncation. -/

/-- clamp(maxResults, 0, 50) as the spec states it: values below 0 count as
0, values above 50 count as 50. -/
def specClampMaxResults (maxResults : Int) : Nat :=
  (min (max maxResults 0) 50).toNat

/-! ## Concrete fixtures used by witness theorems -/

/-- An environment in which every CDP request yields an empty answer. -/
def envEmpty : CdpEnv :=
  { query := fun _ => [], computedStyle := fun _ => [],
    matchedStyles := fun _ =>
      { inlineStyle := none, matchedCSSRules := [], inherited := [] },
    styleSheetText := fun _ => none, styleSheetSourceURL := fun _ => none,
    attributes := fun _ => [], boxModel := fun _ => none,
    nodeName := fun _ => none }

/-- A property record with no source range. -/
def mkProp (n v : String) (imp : Bool) : CDPProperty :=
  { name := n, value := v, important := imp, disabled := false, range := none }

/-- Fixture rule: .a sets color red, normal. -/
def ruleA : CDPRule :=
  { selectorList := some { text := some ".a" },
    style := { cssProperties := [mkProp "color" "red" false],
               styleSheetId := some "s1" } }

/-- Fixture rule: .b sets color blue, important. -/
def ruleB : CDPRule :=
  { selectorList := some { text := some ".b" },
    style := { cssProperties := [mkProp "color" "blue" true],
               styleSheetId := some "s1" } }

/-- Fixture matched styles: inline color green (normal) plus the two rules,
in match order .a then .b. -/
def msFixture : CDPMatchedStyles :=
  { inlineStyle := some { cssProperties := [mkProp "color" "green" false],
                          styleSheetId := none },
    matchedCSSRules := [{ rule := ruleA }, { rule := ruleB }],
    inherited := [] }

/-- Fixture environment: one node (id 7) matching any selector, carrying
msFixture and a computed color. -/
def envFixture : CdpEnv :=
  { envEmpty with
    query := fun _ => [7],
    matchedStyles := fun _ => msFixture,
    computedStyle := fun _ => [("color", "rgb(0, 0, 255)")] }

/-- Fixture environment with two matching nodes and no styles. -/
def envTwoNodes : CdpEnv := { envEmpty with query := fun _ => [1, 2] }

/-- Fixture environment with a computed value but no declarations at all. -/
def envComputedOnly : CdpEnv :=
  { envEmpty with computedStyle := fun _ => [("color", "rgb(0, 0, 0)")] }

/-- Fixture session state: single-instance policy on, no hook teardown. -/
def sessPlain : SessState :=
  { policy := { singleInstance := true, idleMs := 300000 }, hookStopFn := false }

/-- Fixture session state whose setup hook returned a teardown callback. -/
def sessWithHook : SessState :=
  { policy := { singleInstance := true, idleMs := 300000 }, hookStopFn := true }

/-- Fixture manager state with sessWithHook active. -/
def mgrActiveWithHook : ManagerState :=
  { session := some sessWithHook, startInProgress := false, idleTimer := true }

/-- Fixture manager state with sessPlain active. -/
def mgrActivePlain : ManagerState :=
  { session := some sessPlain, startInProgress := false, idleTimer := true }

/-- Fixture manager state with no session. -/
def mgrAbsent : ManagerState :=
  { session := none, startInProgress := false, idleTimer := false }

/-- Teardown outcomes where every step succeeds. -/
def stopAllOk : StopOutcomes :=
  { detachOk := true, pageCloseOk := true, contextCloseOk := true,
    browserCloseOk := true, hookStopOk := true }

/-- Teardown outcomes where every resource release fails and the hook
teardown callback throws. -/
def stopAllFail : StopOutcomes :=
  { detachOk := false, pageCloseOk := false, contextCloseOk := false,
    browserCloseOk := false, hookStopOk := false }

/-- Include options requesting nothing. -/
def inclNone : IncludeOpts :=
  { attributes := false, boxModel := false, computed := none, role := false }

/-! ## Helper lemmas -/

lemma jsSliceTo_nil (e : Int) : jsSliceTo ([] : List α) e = [] := by
  simp only [jsSliceTo]
  simp

lemma jsSliceTo_length_of_nonneg (l : List α) (e : Int) (h : 0 ≤ e) :
    (jsSliceTo l e).length = min l.length e.toNat := by
  simp only [jsSliceTo]
  rw [if_neg (by omega)]
  simp only [List.length_take]
  omega

/-! ## Claim theorems -/

/-- C10: extractSnippet is total: an out-of-bounds line (negative, or not
below the number of newline-separated lines) yields the empty string; an
in-bounds line with the default context of 0 yields exactly that line; and
the column argument never affects the result. -/
theorem extractSnippet_total_and_column_free (text : String) (line column : Int) :
    ((line < 0 ∨ ((jsSplit '\n' text).length : Int) ≤ line) →
        extractSnippet text line column = "") ∧
    (∀ hlt : line.toNat < (jsSplit '\n' text).length, 0 ≤ line →
        extractSnippet text line column
          = (jsSplit '\n' text).get ⟨line.toNat, hlt⟩) ∧
    (∀ column2 : Int,
        extractSnippet text line column = extractSnippet text line column2) := by
  refine ⟨?_, ?_, fun _ => rfl⟩
  · intro h
    simp only [extractSnippet]
    rw [if_pos h]
  · intro hlt h0
    simp only [extractSnippet]
    rw [if_neg (by omega)]
    have h1 : (max 0 (line - 0)).toNat = line.toNat := by omega
    have h2 : (min (((jsSplit '\n' text).length : Int) - 1) (line + 0) + 1
        - max 0 (line - 0)).toNat = 1 := by omega
    rw [h1, h2, List.drop_eq_get_cons hlt]
    rfl

/-- C10 witness: line 1 of a two-line text is returned whatever the column;
line 5 is out of bounds and yields the empty string. -/
theorem extractSnippet_total_and_column_free_witness :
    extractSnippet "a\nb" 1 99 = "b" ∧ extractSnippet "a\nb" 5 12 = "" := by
  constructor
  · have h := (extractSnippet_total_and_column_free "a\nb" 1 99).2.1
      (by decide) (by decide)
    rw [h]
    rfl
  · exact (extractSnippet_total_and_column_free "a\nb" 5 12).1 (by right; decide)

/-- C9: stopping when no session exists succeeds with ok true, leaves the
manager state unchanged, performs no teardown step, never raises
NO_ACTIVE_SESSION, and a repeated stop behaves identically, so stopSession
is idempotent. -/
theorem sessionStop_idempotent_when_absent (st : ManagerState) (o : StopOutcomes)
    (h : st.session = none) :
    sessionStop st o = (st, [], Except.ok { ok := true }) ∧
    (∀ o2, sessionStop (sessionStop st o).1 o2
        = (st, [], Except.ok { ok := true })) := by
  have hstop : ∀ o1, SessionManager.stop st o1 = (st, [], Except.ok ()) := by
    intro o1
    unfold SessionManager.stop
    rw [h]
  have h1 : ∀ o1, sessionStop st o1 = (st, [], Except.ok { ok := true }) := by
    intro o1
    unfold sessionStop
    rw [hstop o1]
  refine ⟨h1 o, fun o2 => ?_⟩
  rw [h1 o]
  exact h1 o2

/-- C9 witness: for the concrete absent manager state. -/
theorem sessionStop_idempotent_when_absent_witness :
    sessionStop mgrAbsent stopAllFail
      = (mgrAbsent, [], Except.ok { ok := true }) :=
  (sessionStop_idempotent_when_absent mgrAbsent stopAllFail rfl).1

/-- C6: stopping an active session runs the teardown steps in the strict
order detach, close page, close context, close browser, then the
hook-supplied teardown callback (when one exists), preceded by the internal
state-clearing step; the trace is the same for every combination of
resource-release outcomes, so a failed release never prevents later steps;
a hook teardown failure is surfaced as HOOKS_STOP_FAILED while all other
outcomes return ok. -/
theorem stop_strict_teardown_order (st : ManagerState) (s : SessState)
    (o : StopOutcomes) (h : st.session = some s) :
    (SessionManager.stop st o).2.1
      = [TeardownStep.clearState, TeardownStep.detachCdp, TeardownStep.closePage,
         TeardownStep.closeContext, TeardownStep.closeBrowser]
        ++ (if s.hookStopFn then [TeardownStep.hookStop] else []) ∧
    (s.hookStopFn = true → o.hookStopOk = false →
      (SessionManager.stop st o).2.2
        = Except.error (createError ErrorCode.HOOKS_STOP_FAILED
            "Hook stop function threw an error")) ∧
    ((s.hookStopFn = false ∨ o.hookStopOk = true) →
      (SessionManager.stop st o).2.2 = Except.ok ()) := by
  unfold SessionManager.stop
  rw [h]
  by_cases hh : s.hookStopFn <;> by_cases ho : o.hookStopOk <;>
    simp [hh, ho]

/-- C6 witness: a session with a hook teardown callback, all resource
releases failing and the hook callback throwing: every step still runs in
order and the hook failure is surfaced. -/
theorem stop_strict_teardown_order_witness :
    (SessionManager.stop mgrActiveWithHook stopAllFail).2.1
      = [TeardownStep.clearState, TeardownStep.detachCdp, TeardownStep.closePage,
         TeardownStep.closeContext, TeardownStep.closeBrowser,
         TeardownStep.hookStop] ∧
    (SessionManager.stop mgrActiveWithHook stopAllFail).2.2
      = Except.error (createError ErrorCode.HOOKS_STOP_FAILED
          "Hook stop function threw an error") := by
  have h := stop_strict_teardown_order mgrActiveWithHook sessWithHook
    stopAllFail rfl
  exact ⟨by rw [h.1]; rfl, h.2.1 rfl rfl⟩

/-- C8: stop on an active session clears the session cell and the
start-in-progress flag as its first teardown action (before any resource
release), and for every outcome combination, including a throwing hook
teardown callback, the manager ends absent: getSession then fails with
NO_ACTIVE_SESSION and a repeated stop is a pure no-op with an empty step
trace, so teardown runs at most once per session. -/
theorem stop_clears_state_and_runs_once (st : ManagerState) (s : SessState)
    (o : StopOutcomes) (h : st.session = some s) :
    (SessionManager.stop st o).1.session = none ∧
    (SessionManager.stop st o).1.startInProgress = false ∧
    (SessionManager.stop st o).2.1.head? = some TeardownStep.clearState ∧
    SessionManager.getSession (SessionManager.stop st o).1
      = Except.error (createError ErrorCode.NO_ACTIVE_SESSION
          "No active session. Call devtools.session.start first.") ∧
    (∀ o2, SessionManager.stop (SessionManager.stop st o).1 o2
        = ((SessionManager.stop st o).1, [], Except.ok ())) := by
  unfold SessionManager.stop
  rw [h]
  by_cases hh : s.hookStopFn <;> by_cases ho : o.hookStopOk <;>
    simp [hh, ho, SessionManager.getSession]

/-- C8 witness: concrete active session with a throwing hook teardown. -/
theorem stop_clears_state_and_runs_once_witness :
    (SessionManager.stop mgrActiveWithHook stopAllFail).1.session = none ∧
    SessionManager.getSession (SessionManager.stop mgrActiveWithHook stopAllFail).1
      = Except.error (createError ErrorCode.NO_ACTIVE_SESSION
          "No active session. Call devtools.session.start first.") := by
  have h := stop_clears_state_and_runs_once mgrActiveWithHook sessWithHook
    stopAllFail rfl
  exact ⟨h.1, h.2.2.2.1⟩

/-- C2: with a session active and the single-instance policy enabled,
sessionStart fails with ALREADY_STARTED, an error code distinct from
SESSION_START_IN_PROGRESS (which is returned when no session exists but a
start is still in flight); and after a stopSession, a start whose body
succeeds returns ok. -/
theorem sessionStart_rejects_when_active (st : ManagerState) (s : SessState)
    (body : Except DevToolsError SessState)
    (hactive : st.session = some s)
    (hsingle : s.policy.singleInstance = true) :
    (sessionStart st body).2
      = Except.error (createError ErrorCode.ALREADY_STARTED
          "Session is already active. Call devtools.session.stop first.") ∧
    ErrorCode.ALREADY_STARTED ≠ ErrorCode.SESSION_START_IN_PROGRESS ∧
    (∀ (st2 : ManagerState) (body2 : Except DevToolsError SessState),
      st2.session = none → st2.startInProgress = true →
      (sessionStart st2 body2).2
        = Except.error (createError ErrorCode.SESSION_START_IN_PROGRESS
            "Session start is already in progress")) ∧
    (∀ (o : StopOutcomes) (s2 : SessState),
      (sessionStart (sessionStop st o).1 (Except.ok s2)).2
        = Except.ok { ok := true }) := by
  refine ⟨?_, by decide, ?_, ?_⟩
  · unfold sessionStart SessionManager.hasSession
    rw [hactive]
    rfl
  · intro st2 body2 h2 h3
    unfold sessionStart SessionManager.hasSession SessionManager.isStarting
    rw [h2, h3]
    rfl
  · intro o s2
    have hstopped : (sessionStop st o).1
        = { session := none, startInProgress := false, idleTimer := false } := by
      unfold sessionStop SessionManager.stop
      rw [hactive]
      by_cases hh : s.hookStopFn <;> by_cases ho : o.hookStopOk <;>
        simp [hh, ho]
    rw [hstopped]
    rfl

/-- C2 witness: concrete active single-instance session; a second start
fails with ALREADY_STARTED and a start after stop succeeds. -/
theorem sessionStart_rejects_when_active_witness :
    (sessionStart mgrActivePlain (Except.ok sessPlain)).2
      = Except.error (createError ErrorCode.ALREADY_STARTED
          "Session is already active. Call devtools.session.stop first.") ∧
    (sessionStart (sessionStop mgrActivePlain stopAllOk).1
        (Except.ok sessPlain)).2 = Except.ok { ok := true } := by
  have h := sessionStart_rejects_when_active mgrActivePlain sessPlain
    (Except.ok sessPlain) rfl rfl
  exact ⟨h.1, h.2.2.2 stopAllOk sessPlain⟩

/-- C4: for every property in the static shorthand table and every target
and environment, getCssProvenance fails with the shorthand-rejection error
and issues no CDP call at all: the result and the empty call trace are
independent of the environment, so the error is the same whether or not the
target matches any node, and no element-target resolution or style-engine
call happens. -/
theorem getCssProvenance_shorthand_rejected (env : CdpEnv)
    (params : GetCssProvenanceParams) (h : isShorthand params.property = true) :
    getCssProvenance (some ()) env params
      = (Except.error (createError ErrorCode.UNEXPECTED_ERROR
          ("Property " ++ params.property ++
           " is a CSS shorthand. Please use the longhand property instead.")),
         []) := by
  unfold getCssProvenance
  rw [if_pos h]

/-- C4 witness: the shorthand margin is rejected identically in an
environment with no matching nodes and in one with a matching node. -/
theorem getCssProvenance_shorthand_rejected_witness :
    isShorthand "margin" = true ∧
    getCssProvenance (some ()) envEmpty
        { target := ElementTarget.selector ".x", property := "margin",
          includeContributors := false, maxResults := none }
      = (Except.error (createError ErrorCode.UNEXPECTED_ERROR
          "Property margin is a CSS shorthand. Please use the longhand property instead."),
         []) ∧
    getCssProvenance (some ()) envFixture
        { target := ElementTarget.selector ".x", property := "margin",
          includeContributors := false, maxResults := none }
      = (Except.error (createError ErrorCode.UNEXPECTED_ERROR
          "Property margin is a CSS shorthand. Please use the longhand property instead."),
         []) := by
  refine ⟨by rfl, ?_, ?_⟩
  · exact getCssProvenance_shorthand_rejected envEmpty _ (by rfl)
  · exact getCssProvenance_shorthand_rejected envFixture _ (by rfl)

/-- C5: when the target's selector matches zero nodes, resolveElementTargets
returns the empty node list (not an error) for every maxResults value, and
both getElement and getCssProvenance (on a non-shorthand property) convert
that empty list into the ELEMENT_NOT_FOUND failure, again for every
maxResults value. -/
theorem zero_matches_element_not_found (env : CdpEnv) (tgt : ElementTarget)
    (hq : env.query (targetSelector tgt) = [])
    (prop : String) (hp : isShorthand prop = false)
    (inclC : Bool) (incl : IncludeOpts) (mr : Option Int) :
    (∀ m : Int, (resolveElementTargets env tgt m).1 = []) ∧
    (getCssProvenance (some ()) env
        { target := tgt, property := prop, includeContributors := inclC,
          maxResults := mr }).1
      = Except.error (createError ErrorCode.ELEMENT_NOT_FOUND
          "No elements found matching target") ∧
    (getElement (some ()) env
        { target := tgt, incl := incl, maxResults := mr }).1
      = Except.error (createError ErrorCode.ELEMENT_NOT_FOUND
          "No elements found matching target") := by
  refine ⟨?_, ?_, ?_⟩
  · intro m
    simp [resolveElementTargets, hq, jsSliceTo_nil]
  · simp [getCssProvenance, resolveElementTargets, hq, hp, jsSliceTo_nil]
  · simp [getElement, resolveElementTargets, hq, jsSliceTo_nil]

/-- C5 witness: a selector with no matches yields ELEMENT_NOT_FOUND from
both handlers and the empty list from the query layer. -/
theorem zero_matches_element_not_found_witness :
    envEmpty.query ".missing" = [] ∧
    isShorthand "color" = false ∧
    (getCssProvenance (some ()) envEmpty
        { target := ElementTarget.selector ".missing", property := "color",
          includeContributors := false, maxResults := some 25 }).1
      = Except.error (createError ErrorCode.ELEMENT_NOT_FOUND
          "No elements found matching target") := by
  refine ⟨rfl, by rfl, ?_⟩
  exact (zero_matches_element_not_found envEmpty
    (ElementTarget.selector ".missing") rfl "color" (by rfl)
    false inclNone (some 25)).2.1

/-- C3 (amended): for every nonnegative caller-supplied maxResults, the
handlers pass min(maxResults, 50) to resolveElementTargets, which then
returns exactly min(actualMatchCount, clamp(maxResults, 0, 50)) nodes — so
requesting above 50 never yields more than 50 and requesting 0 yields zero
results — and every successful getElement / getCssProvenance result carries
exactly that many entries.  (For negative maxResults the code follows
JavaScript slice semantics instead of clamping to zero; see the
counterexample.) -/
theorem resolveTargets_length_clamped (env : CdpEnv) (tgt : ElementTarget)
    (mr : Int) (hmr : 0 ≤ mr) :
    ((resolveElementTargets env tgt (min mr 50)).1).length
      = min (env.query (targetSelector tgt)).length (specClampMaxResults mr) ∧
    (∀ (prop : String) (inclC : Bool) (r : GetCssProvenanceResult),
      (getCssProvenance (some ()) env
        { target := tgt, property := prop, includeContributors := inclC,
          maxResults := some mr }).1 = Except.ok r →
      r.results.length
        = min (env.query (targetSelector tgt)).length (specClampMaxResults mr)) ∧
    (∀ (incl : IncludeOpts) (r : GetElementResult),
      (getElement (some ()) env
        { target := tgt, incl := incl, maxResults := some mr }).1 = Except.ok r →
      r.results.length
        = min (env.query (targetSelector tgt)).length (specClampMaxResults mr)) := by
  have hclamp : (min mr 50).toNat = specClampMaxResults mr := by
    unfold specClampMaxResults
    omega
  have hlen : ((resolveElementTargets env tgt (min mr 50)).1).length
      = min (env.query (targetSelector tgt)).length (specClampMaxResults mr) := by
    simp only [resolveElementTargets]
    rw [jsSliceTo_length_of_nonneg _ _ (by omega), hclamp]
  refine ⟨hlen, ?_, ?_⟩
  · intro prop inclC r h
    by_cases hsh : isShorthand prop
    · simp [getCssProvenance, hsh] at h
    · simp only [getCssProvenance, resolveElementTargets, Option.getD,
        if_neg hsh, Bool.false_eq_true, if_false] at h
      by_cases hne :
          (jsSliceTo (env.query (targetSelector tgt)) (min mr 50)).isEmpty
      · simp [hne] at h
      · simp only [hne, Bool.false_eq_true, if_false, Except.ok.injEq] at h
        rw [← h]
        simp only [List.length_map]
        simpa only [resolveElementTargets] using hlen
  · intro incl r h
    simp only [getElement, resolveElementTargets, Option.getD] at h
    by_cases hne :
        (jsSliceTo (env.query (targetSelector tgt)) (min mr 50)).isEmpty
    · simp [hne] at h
    · simp only [hne, Bool.false_eq_true, if_false, Except.ok.injEq] at h
      rw [← h]
      simp only [List.length_map]
      simpa only [resolveElementTargets] using hlen

/-- C3 witness: with two matches, maxResults 1 yields one result and
maxResults 100 is capped to at most 50 (here: all two matches). -/
theorem resolveTargets_length_clamped_witness :
    ((resolveElementTargets envTwoNodes (ElementTarget.selector ".x")
        (min (1 : Int) 50)).1).length
      = min (envTwoNodes.query
          (targetSelector (ElementTarget.selector ".x"))).length
          (specClampMaxResults 1) ∧
    ((resolveElementTargets envTwoNodes (ElementTarget.selector ".x")
        (min (100 : Int) 50)).1).length
      = min (envTwoNodes.query
          (targetSelector (ElementTarget.selector ".x"))).length
          (specClampMaxResults 100) := by
  exact ⟨(resolveTargets_length_clamped envTwoNodes
      (ElementTarget.selector ".x") 1 (by decide)).1,
    (resolveTargets_length_clamped envTwoNodes
      (ElementTarget.selector ".x") 100 (by decide)).1⟩

/-- C3 counterexample: with two matching nodes and maxResults = -1, the
node list returned by resolveElementTargets (through the handler's
Math.min(-1, 50) = -1) has length 1 — JavaScript slice(0, -1) drops only
the last match — whereas the claimed formula min(actualMatchCount,
clamp(maxResults, 0, 50)) gives 0. -/
theorem resolveTargets_negative_maxResults_counterexample :
    ((resolveElementTargets envTwoNodes (ElementTarget.selector ".x")
        (min (-1 : Int) 50)).1).length
      ≠ min (envTwoNodes.query
          (targetSelector (ElementTarget.selector ".x"))).length
          (specClampMaxResults (-1)) := by
  decide

/-- C7: when no enabled declaration for the property exists on the node —
neither inline nor in any matched rule — the provenance result has no
winner and no contributors, while its computed value is read independently
from the style engine's computed-style response (and so may be non-null);
the inherited ancestor styles reported by the protocol are never consulted,
so no ancestor chain is walked and no inheritance is recomputed. -/
theorem no_declarations_means_no_winner (env : CdpEnv) (nodeId : Nat)
    (property : String) (inclC : Bool)
    (h : collectDeclarations (env.matchedStyles nodeId) property = []) :
    (provenanceForNode env nodeId property inclC).1.winner = none ∧
    (provenanceForNode env nodeId property inclC).1.contributors = none ∧
    (provenanceForNode env nodeId property inclC).1.computedValue
      = jsOrNull (recordGet
          ((env.computedStyle nodeId).filter fun e => [property].contains e.1)
          property) ∧
    (∀ inh : List CDPStyle,
      collectDeclarations
          { env.matchedStyles nodeId with inherited := inh } property
        = collectDeclarations (env.matchedStyles nodeId) property) := by
  have hfind : findWinningDeclaration env nodeId property
      = ((none, []), [CdpCall.getMatchedStylesForNode nodeId]) := by
    simp [findWinningDeclaration, h]
  refine ⟨?_, ?_, ?_, fun inh => rfl⟩ <;>
    simp [provenanceForNode, getComputedStyles, hfind]

/-- C7 witness: a node with a computed color but zero declarations: the
winner is absent while the computed value is non-null. -/
theorem no_declarations_means_no_winner_witness :
    collectDeclarations (envComputedOnly.matchedStyles 1) "color" = [] ∧
    (provenanceForNode envComputedOnly 1 "color" false).1.winner = none ∧
    (provenanceForNode envComputedOnly 1 "color" false).1.computedValue
      = some "rgb(0, 0, 0)" := by
  have h := no_declarations_means_no_winner envComputedOnly 1 "color" false rfl
  exact ⟨rfl, h.1, by rw [h.2.2.1]; rfl⟩

/-- If all four cascade buckets are empty, there were no declarations. -/
lemma eq_nil_of_cascadeBuckets_nil (all : List (Nat × Decl))
    (h1 : cascadeBucket all true true = [])
    (h2 : cascadeBucket all false true = [])
    (h3 : cascadeBucket all true false = [])
    (h4 : cascadeBucket all false false = []) : all = [] := by
  cases all with
  | nil => rfl
  | cons x xs =>
    exfalso
    have hmem : x ∈ cascadeBucket (x :: xs) (declIsInline x.2)
        (x.2.prop.important) := by
      unfold cascadeBucket
      simp [List.mem_filter]
    cases hp : declIsInline x.2 with
    | false =>
      cases hq : x.2.prop.important with
      | false => rw [hp, hq, h4] at hmem; simp at hmem
      | true => rw [hp, hq, h2] at hmem; simp at hmem
    | true =>
      cases hq : x.2.prop.important with
      | false => rw [hp, hq, h3] at hmem; simp at hmem
      | true => rw [hp, hq, h1] at hmem; simp at hmem

/-- The priority if-chain over four candidate buckets agrees with taking the
first non-empty bucket of the priority list and its last element. -/
lemma ite_chain_eq_find [DecidableEq α] (b1 b2 b3 b4 : List α) :
    (if b1 ≠ [] then b1.getLast? else if b2 ≠ [] then b2.getLast?
      else if b3 ≠ [] then b3.getLast? else b4.getLast?)
    = (([b1, b2, b3, b4].find? fun b => !b.isEmpty).bind List.getLast?) := by
  by_cases h1 : b1 = []
  · subst h1
    rw [if_neg (by simp), List.find?_cons_of_neg _ (by simp)]
    by_cases h2 : b2 = []
    · subst h2
      rw [if_neg (by simp), List.find?_cons_of_neg _ (by simp)]
      by_cases h3 : b3 = []
      · subst h3
        rw [if_neg (by simp), List.find?_cons_of_neg _ (by simp)]
        by_cases h4 : b4 = []
        · subst h4
          rw [List.find?_cons_of_neg _ (by simp)]
          rfl
        · rw [List.find?_cons_of_pos _ (by simp [List.isEmpty_eq_false.mpr h4])]
          rfl
      · rw [if_pos h3,
          List.find?_cons_of_pos _ (by simp [List.isEmpty_eq_false.mpr h3])]
        rfl
    · rw [if_pos h2,
        List.find?_cons_of_pos _ (by simp [List.isEmpty_eq_false.mpr h2])]
      rfl
  · rw [if_pos h1,
      List.find?_cons_of_pos _ (by simp [List.isEmpty_eq_false.mpr h1])]
    rfl

/-- The source's two-stage filters compute exactly the specification
buckets, and its if-chain picks the last element of the first non-empty one:
winner selection coincides with the specification-level cascade winner. -/
lemma pickWinner_eq_specCascadeWinner (all : List (Nat × Decl)) :
    pickWinner all = specCascadeWinner all := by
  have e1 : (all.filter fun d => declIsInline d.2).filter
        (fun d => d.2.prop.important) = cascadeBucket all true true := by
    rw [List.filter_filter]
    apply List.filter_congr
    intro x _
    cases declIsInline x.2 <;> cases x.2.prop.important <;> rfl
  have e2 : (all.filter fun d => !declIsInline d.2).filter
        (fun d => d.2.prop.important) = cascadeBucket all false true := by
    rw [List.filter_filter]
    apply List.filter_congr
    intro x _
    cases declIsInline x.2 <;> cases x.2.prop.important <;> rfl
  have e3 : (all.filter fun d => declIsInline d.2).filter
        (fun d => !d.2.prop.important) = cascadeBucket all true false := by
    rw [List.filter_filter]
    apply List.filter_congr
    intro x _
    cases declIsInline x.2 <;> cases x.2.prop.important <;> rfl
  have e4 : (all.filter fun d => !declIsInline d.2).filter
        (fun d => !d.2.prop.important) = cascadeBucket all false false := by
    rw [List.filter_filter]
    apply List.filter_congr
    intro x _
    cases declIsInline x.2 <;> cases x.2.prop.important <;> rfl
  simp only [pickWinner, e1, e2, e3, e4]
  rw [ite_chain_eq_find]
  rfl

/-- On a non-empty declaration list the specification winner exists. -/
lemma specCascadeWinner_isSome (all : List (Nat × Decl)) (h : all ≠ []) :
    (specCascadeWinner all).isSome := by
  unfold specCascadeWinner
  rw [← ite_chain_eq_find]
  by_cases h1 : cascadeBucket all true true = []
  · by_cases h2 : cascadeBucket all false true = []
    · by_cases h3 : cascadeBucket all true false = []
      · have h4 : cascadeBucket all false false ≠ [] := by
          intro h4
          exact h (eq_nil_of_cascadeBuckets_nil all h1 h2 h3 h4)
        simp [h1, h2, h3, List.getLast?_isSome, h4]
      · simp [h1, h2, h3, List.getLast?_isSome]
    · simp [h1, h2, List.getLast?_isSome]
  · simp [h1, List.getLast?_isSome]

/-- C1: whenever at least one enabled declaration for the property exists on
the node, the specification-level cascade winner exists — the last
declaration, in the style engine's reported match order kept verbatim by
the collection phase, within the highest-priority non-empty bucket
(inline-important, then stylesheet-important, then inline-normal, then
stylesheet-normal) — and findWinningDeclaration reports exactly that
declaration (mapped through the declaration source resolver) as its
winner. -/
theorem cascade_winner_is_last_of_highest_bucket (env : CdpEnv) (nodeId : Nat)
    (property : String)
    (h : collectDeclarations (env.matchedStyles nodeId) property ≠ []) :
    ∃ w : Nat × Decl,
      specCascadeWinner
          ((collectDeclarations (env.matchedStyles nodeId) property).enum)
        = some w ∧
      (findWinningDeclaration env nodeId property).1.1
        = some (declarationToSource env w.2).1 := by
  have henum : (collectDeclarations (env.matchedStyles nodeId) property).enum
      ≠ [] := by
    intro hc
    apply h
    have hlen := congrArg List.length hc
    rw [List.enum_length] at hlen
    exact List.length_eq_zero.mp hlen
  have hsome := specCascadeWinner_isSome _ henum
  obtain ⟨w, hw⟩ := Option.isSome_iff_exists.mp hsome
  obtain ⟨i, d⟩ := w
  have hpick : pickWinner
      ((collectDeclarations (env.matchedStyles nodeId) property).enum)
      = some (i, d) := by
    rw [pickWinner_eq_specCascadeWinner]
    exact hw
  refine ⟨(i, d), hw, ?_⟩
  simp only [findWinningDeclaration, hpick]
  rw [if_neg (by simp [List.isEmpty_eq_false.mpr h])]

/-- C1 witness: inline color green (normal) against a later stylesheet rule
with color blue marked important: the stylesheet-important bucket wins and
its last (only) declaration, the blue one, is reported as the winner. -/
theorem cascade_winner_is_last_of_highest_bucket_witness :
    collectDeclarations (envFixture.matchedStyles 7) "color" ≠ [] ∧
    (∃ w : Nat × Decl,
      specCascadeWinner
          ((collectDeclarations (envFixture.matchedStyles 7) "color").enum)
        = some w ∧
      (findWinningDeclaration envFixture 7 "color").1.1
        = some (declarationToSource envFixture w.2).1) ∧
    (findWinningDeclaration envFixture 7 "color").1.1
      = some { source := "stylesheet", value := "blue", important := true,
               selector := some ".b", stylesheetUrl := none, line := none,
               column := none, snippet := none } := by
  refine ⟨by decide, cascade_winner_is_last_of_highest_bucket envFixture 7
    "color" (by decide), by decide⟩
